import Mathlib

/-!
Verification of the ItchClaim sale crawler / claim engine against its
natural-language specification.

The embedding models the Python sources shallowly:
  - `datetime` values are unix timestamps (`Int`, whole seconds; the disk
    formats only ever store whole-second timestamps via `int(x.timestamp())`);
  - network fetches are explicit environment functions passed as arguments;
  - Python exceptions are `Except PyErr`;
  - the module-level `ItchSale.cached_sales` dictionary is threaded as an
    explicit association list.
-/

namespace ItchClaim

/-- Python exceptions that the embedded code can raise. -/
inductive PyErr where
  | valueError : PyErr
  | keyError : PyErr
  | unboundLocalError : PyErr
  deriving DecidableEq, Repr

/-- A dynamically typed Python value, as needed for the disk-cache fields.
`tup1 v` is the 1-tuple `(v,)`. -/
inductive PyVal where
  | int : Int → PyVal
  | tup1 : PyVal → PyVal
  deriving DecidableEq, Repr

/-! ## ItchSale (src/ItchClaim/ItchSale.py) -/

/-- The result of fetching the sale page for an id (ItchSale.get_data_online).
`notFound redirected`: HTTP 404, where `redirected` states whether the
response's final url differs from the requested sale url.
`page declaredId startDate endDate`: a 200 page whose embedded SalePage
payload parses to the given fields. -/
inductive FetchResult where
  | notFound (redirected : Bool)
  | page (declaredId startDate endDate : Int)
  deriving DecidableEq, Repr

/-- ItchSale: fields `id`, `start`, `end` (timestamps, possibly unset) and
`err` (a status string or None), mirroring ItchSale.__init__'s attributes. -/
structure ItchSale where
  id : Int
  start : Option Int
  end_ : Option Int
  err : Option String
  deriving DecidableEq, Repr

/-- ItchSale.get_data_online: classify a 404 by whether the final url equals
the requested sale url; otherwise parse the payload, store `start`/`end`,
and raise ValueError when the declared id disagrees with `self.id`. In the
source the timestamps are assigned before the mismatch check, but the raise
propagates out of ItchSale.__init__ (the only caller in the sources), so
the mutated instance never escapes; the error return models that. -/
def ItchSale.get_data_online (fetch : Int → FetchResult) (s : ItchSale) :
    Except PyErr ItchSale :=
  match fetch s.id with
  | .notFound redirected =>
      if redirected then
        .ok { s with err := some "404_NOT_FOUND" }
      else
        .ok { s with err := some "NO_MORE_SALES_AVAILABLE" }
  | .page declaredId startDate endDate =>
      if s.id ≠ declaredId then
        .error .valueError
      else
        .ok { s with start := some startDate, end_ := some endDate }

/-- ItchSale.__init__: store the fields; when start or end is missing,
immediately call get_data_online. -/
def ItchSale.init (fetch : Int → FetchResult) (id : Int)
    (end_ start : Option Int) : Except PyErr ItchSale :=
  let s : ItchSale := { id := id, start := start, end_ := end_, err := none }
  if start = none ∨ end_ = none then s.get_data_online fetch else .ok s

/-- ItchSale.serialize: the on-disk dictionary `{id, start, end}`. Calling
`.timestamp()` on an unset (None) field raises in Python; modelled as error. -/
structure SaleDict where
  id : Int
  start : Option Int
  end_ : Option Int
  deriving DecidableEq, Repr

def ItchSale.serialize (s : ItchSale) : Except PyErr SaleDict :=
  match s.start, s.end_ with
  | some a, some b => .ok { id := s.id, start := some a, end_ := some b }
  | _, _ => .error .valueError

/-- The module-level ItchSale.cached_sales dictionary, threaded explicitly. -/
abbrev SaleCache := List (Int × ItchSale)

def cacheLookup (c : SaleCache) (id : Int) : Option ItchSale :=
  (c.find? (fun p => p.1 = id)).map Prod.snd

/-- The `if sale.err:` repair block of ItchSale.from_dict: when the refetch
404d, synthesize the missing bound from whichever field the record holds —
end missing takes the record's start (KeyError when that is also absent),
start missing takes the record's end. -/
def repair_fix (d : SaleDict) (sale : ItchSale) : Except PyErr ItchSale :=
  if sale.err.isSome then
    if d.end_ = none then
      match d.start with
      | some a => .ok { sale with start := some a, end_ := some a }
      | none => .error .keyError
    else if d.start = none then
      .ok { sale with end_ := d.end_, start := d.end_ }
    else .ok sale
  else .ok sale

/-- The KeyError branch of ItchSale.from_dict (record missing start or
end): consult cached_sales; on a miss refetch via ItchSale(id), repair,
set err to STATUS_UPDATED and cache the repaired instance. The Nat result
counts the network refetches performed. -/
def from_dict_miss (fetch : Int → FetchResult) (cache : SaleCache)
    (d : SaleDict) : Except PyErr (ItchSale × SaleCache × Nat) :=
  match cacheLookup cache d.id with
  | some s => .ok (s, cache, 0)
  | none =>
      match ItchSale.init fetch d.id none none with
      | .error e => .error e
      | .ok sale =>
          match repair_fix d sale with
          | .error e => .error e
          | .ok sale2 =>
              let sale3 := { sale2 with err := some "STATUS_UPDATED" }
              .ok (sale3, (d.id, sale3) :: cache, 1)

/-- ItchSale.from_dict: build a sale from a persisted dictionary. When both
timestamps are present no network access happens; when one is missing
(KeyError path) the repair branch from_dict_miss runs. Returns the sale,
the updated cache and the number of network refetches performed. -/
def ItchSale.from_dict (fetch : Int → FetchResult) (cache : SaleCache)
    (d : SaleDict) : Except PyErr (ItchSale × SaleCache × Nat) :=
  match d.start, d.end_ with
  | some a, some b =>
      .ok ({ id := d.id, start := some a, end_ := some b, err := none }, cache, 0)
  | _, _ => from_dict_miss fetch cache d

/-- ItchSale.is_active: returns whether `datetime.now() < self.end`; comparing
with an unset end raises in Python, modelled as `none`. -/
def ItchSale.is_active (now : Int) (s : ItchSale) : Option Bool :=
  s.end_.map (fun e => decide (now < e))

/-- ItchSale.is_upcoming: returns whether `datetime.now() < self.start`. -/
def ItchSale.is_upcoming (now : Int) (s : ItchSale) : Option Bool :=
  s.start.map (fun a => decide (now < a))

/-! ## ItchGame (src/ItchClaim/ItchGame.py) -/

/-- ItchGame with all disk-cache fields set (`id, name, url, price,
claimable, sale_id, sale_end, cover_image`). `sale_id` is a dynamically
typed Python attribute, hence `PyVal`. `sale_end` is a whole-second unix
timestamp; `price` is the nullable monetary amount. -/
structure ItchGame where
  id : Int
  name : String
  url : String
  price : Option Rat
  claimable : Bool
  sale_id : PyVal
  sale_end : Int
  cover_image : String
  deriving DecidableEq, Repr

/-- The JSON dictionary ItchGame.save_to_disk writes (one file per game). -/
structure GameDict where
  id : Int
  name : String
  url : String
  price : Option Rat
  claimable : Bool
  sale_id : PyVal
  sale_end : Int
  cover_image : String
  deriving DecidableEq, Repr

/-- ItchGame.save_to_disk: write every field; `sale_end` is stored as
`int(self.sale_end.timestamp())`. -/
def ItchGame.save_to_disk (g : ItchGame) : GameDict :=
  { id := g.id, name := g.name, url := g.url, price := g.price,
    claimable := g.claimable, sale_id := g.sale_id, sale_end := g.sale_end,
    cover_image := g.cover_image }

/-- ItchGame.load_from_disk: read every field back. The source line
`self.sale_id = data['sale_id'],` ends in a comma, so the attribute is
assigned the 1-tuple `(data['sale_id'],)`, not the stored value. -/
def ItchGame.load_from_disk (d : GameDict) : ItchGame :=
  { id := d.id, name := d.name, url := d.url, price := d.price,
    claimable := d.claimable, sale_id := PyVal.tup1 d.sale_id,
    sale_end := d.sale_end, cover_image := d.cover_image }

/-- The parsed response of the POST to `url + '/download_url'`: either a
dictionary containing an `errors` list, or one containing the download
page `url`. -/
inductive NegotiationResp where
  | withErrors (errs : List String)
  | okUrl (url : String)
  deriving DecidableEq, Repr

/-- ItchGame.downloadable_files: if the negotiation response carries an
`errors` field, log and return None without requesting the download page;
otherwise GET the negotiated page and parse one entry per upload div.
`divsOn` gives the upload divs of a page and `parseDiv` embeds
parse_download_div. Returns the result and the list of pages requested
after the negotiation POST. -/
def ItchGame.downloadable_files (divsOn : String → List String)
    (parseDiv : String → Int) (resp : NegotiationResp) :
    Option (List Int) × List String :=
  match resp with
  | .withErrors _ => (none, [])
  | .okUrl u => (some ((divsOn u).map parseDiv), [u])

/-! ## The retry client (ItchClaim._send_web, src/ItchClaim/__main__.py) -/

/-- An HTTP response as _send_web inspects it: status code and body. -/
structure Resp where
  status : Nat
  body : String
  deriving DecidableEq, Repr

/-- The outcome of the _send_web retry loop. `exhausted r` models the
`exit(1)` after printing `r.status_code` and `r.text`; `pending` means the
given finite response trace ran out while the loop would still retry. -/
inductive SendResult where
  | ok (r : Resp)
  | exhausted (r : Resp)
  | pending
  deriving DecidableEq, Repr

/-- ItchClaim._send_web: iterate over the successive responses. Status 200,
404 and 301 break the loop and are returned; 429 sleeps 10ms and retries
without touching `count`; any other status increments `count`, and when
`count` reaches 100 the process prints the status and body and exits. -/
def send_web : List Resp → Nat → SendResult
  | [], _ => .pending
  | r :: rest, count =>
      if r.status = 200 ∨ r.status = 404 ∨ r.status = 301 then
        .ok r
      else if r.status = 429 then
        send_web rest count
      else if count + 1 = 100 then
        .exhausted r
      else
        send_web rest (count + 1)

/-! ## The claim engine (ItchClaim._claim_game, ItchClaim.claim,
ItchClaim.claim_url, src/ItchClaim/__main__.py) -/

/-- A game as the claim engine needs it: its canonical url. -/
structure GameRef where
  url : String
  deriving DecidableEq, Repr

/-- Classification of the claim-submission verification step. -/
inductive ClaimOutcome where
  | success
  | successAlreadyOwned
  | unknownClaimFailure
  deriving DecidableEq, Repr

def ClaimOutcome.isSuccess : ClaimOutcome → Bool
  | .unknownClaimFailure => false
  | _ => true

/-- The verification tail of ItchClaim._claim_game (after the POST to the
claim affordance url): if the final url is the itch.io home page, consult
the remote ownership probe; an owned result appends the game and reports it
as already claimed, an unowned one logs an unknown failure without
appending; any other landing page appends the game and reports success.
`landingUrl` is `r.url` of the POST, `ownsOnline` the result
`self.owns_game_online(game)` would give, `owned` the owned_games list. -/
def claim_game_verify (game : GameRef) (landingUrl : String)
    (ownsOnline : Bool) (owned : List GameRef) :
    ClaimOutcome × List GameRef :=
  if landingUrl = "https://itch.io/" then
    if ownsOnline then
      (.successAlreadyOwned, owned ++ [game])
    else
      (.unknownClaimFailure, owned)
  else
    (.success, owned ++ [game])

/-- Modelled from the spec: ItchUser.owns_game (src/ItchClaim/ItchUser.py is
not in the sources). The Owned-Games Set is keyed by Game url, so ownership
is membership of the game's url among the owned games' urls. -/
def owns_game (owned : List GameRef) (g : GameRef) : Bool :=
  owned.any (fun og => og.url = g.url)

/-- The per-game body of the loop of ItchClaim.claim: games whose url the
user already owns are skipped; otherwise claim_game is attempted, appending
the game to owned_games when the claim succeeds (`claimOk`). Returns the
final owned list and the list of games on which a claim-submission attempt
(ItchUser.claim_game) was issued. -/
def claim_sweep (claimOk : GameRef → Bool) (owned : List GameRef) :
    List GameRef → List GameRef × List GameRef
  | [] => (owned, [])
  | g :: rest =>
      if owns_game owned g then
        claim_sweep claimOk owned rest
      else
        let owned2 := if claimOk g then owned ++ [g] else owned
        let r := claim_sweep claimOk owned2 rest
        (r.1, g :: r.2)

/-- The outcome of ItchClaim.claim_url on one url. -/
inductive ClaimUrlResult where
  | attempted
  | unboundLocal
  deriving DecidableEq, Repr

/-- ItchClaim.claim_url: walk the owned urls; on a match the function
executes `print(f"{game.url} already claimed")`, but the local variable
`game` is only assigned later (line 1045), so the print raises
UnboundLocalError. Otherwise the game is fetched from the api and
claim_game / claim_reward are invoked. Returns the outcome, whether a
claim submission was issued, and the owned list (which the error path and
the pre-claim path leave untouched; `claimed` abstracts claim_game's
effect on owned_games). -/
def claim_url (claimed : List GameRef → String → List GameRef)
    (owned : List GameRef) (url : String) :
    ClaimUrlResult × Bool × List GameRef :=
  if owned.any (fun og => og.url = url) then
    (.unboundLocal, false, owned)
  else
    (.attempted, true, claimed owned url)

/-! ## The sale crawler (ItchClaim.refresh_sale_cache and the spec's
Sale Crawler state machine) -/

/-- The observable outcome of one crawl run: the promotion ids requested,
the sales persisted (upserted), the ids the cursor advanced past, the final
persisted Resume Cursor, and whether the run terminated naturally on the
NoMoreSalesAvailable signal (`done`; false when the fuel ran out first). -/
structure CrawlResult where
  requested : List Int
  persisted : List ItchSale
  processed : List Int
  finalCursor : Int
  done : Bool
  deriving DecidableEq, Repr

/-- Modelled from the spec: DiskManager.get_all_sales (DiskManager.py is not
in the sources; only its caller ItchClaim.refresh_sale_cache is). Per the
spec's Sale Crawler state machine: starting at the cursor, fetch each id
through ItchSale; a 404 without redirect (NoMoreSalesAvailable) terminates
the crawl without advancing the cursor past that id; a 404 with redirect
(NotFoundOther) skips the id and advances; a per-id parse error such as
SaleIdMismatch is caught at that granularity, logged and skipped, never
aborting the crawl; otherwise the sale is upserted; the cursor is advanced
to the id plus one only after the id is fully processed. `fuel` bounds the
walk so the model is total. -/
def get_all_sales (fetch : Int → FetchResult) : Nat → Int → CrawlResult
  | 0, n => ⟨[], [], [], n, false⟩
  | fuel + 1, n =>
      match ItchSale.init fetch n none none with
      | .error _ =>
          let r := get_all_sales fetch fuel (n + 1)
          ⟨n :: r.requested, r.persisted, n :: r.processed, r.finalCursor, r.done⟩
      | .ok s =>
          if s.err = some "NO_MORE_SALES_AVAILABLE" then
            ⟨[n], [], [], n, true⟩
          else
            let r := get_all_sales fetch fuel (n + 1)
            ⟨n :: r.requested,
             (if s.err.isSome then r.persisted else s :: r.persisted),
             n :: r.processed, r.finalCursor, r.done⟩

/-- ItchClaim.refresh_sale_cache: `resume` starts at 1; when the persisted
resume_index file exists its value replaces 1 (FileNotFoundError keeps the
default); then the crawl runs from `resume` via DiskManager.get_all_sales. -/
def refresh_sale_cache (fetch : Int → FetchResult) (fuel : Nat)
    (resumeFile : Option Int) : CrawlResult :=
  let resume : Int := match resumeFile with | some v => v | none => 1
  get_all_sales fetch fuel resume

/-! ## Concrete instances used by the theorems -/

/-- A fully populated game, as written by the crawler. -/
def g0 : ItchGame :=
  { id := 3, name := "Sample Game", url := "https://a.itch.io/sample",
    price := some 1, claimable := true, sale_id := PyVal.int 7,
    sale_end := 1700000000, cover_image := "https://img.itch.zone/c.png" }

/-- A sale with both timestamps set. -/
def sale0 : ItchSale := ⟨42, some 100, some 200, none⟩

/-- A game the user already owns. -/
def ownedG : GameRef := ⟨"https://a.itch.io/owned"⟩

/-- A sale that has not started yet at evaluation time 5. -/
def upSale : ItchSale := ⟨1, some 10, some 20, none⟩

/-! ## Claims -/

/-- C1: the disk round-trip does not restore a fully populated Game.
`ItchGame.load_from_disk` assigns `sale_id` from the source line
`self.sale_id = data['sale_id'],` whose trailing comma makes the attribute
the 1-tuple `(data['sale_id'],)`. Every other field round-trips, and the
Sale serialize/from_dict round-trip does restore id, start and end at the
concrete sale0; but the loaded game differs from the written one at the
concrete g0, refuting field-for-field equality. -/
theorem c1_game_roundtrip_sale_id_tuple :
    (ItchGame.load_from_disk (ItchGame.save_to_disk g0)).sale_id
        = PyVal.tup1 (PyVal.int 7)
    ∧ g0.sale_id = PyVal.int 7
    ∧ ItchGame.load_from_disk (ItchGame.save_to_disk g0) ≠ g0
    ∧ (∀ g : ItchGame,
        ItchGame.load_from_disk (ItchGame.save_to_disk g)
          = { g with sale_id := PyVal.tup1 g.sale_id })
    ∧ sale0.serialize = Except.ok ⟨42, some 100, some 200⟩
    ∧ ItchSale.from_dict (fun _ => FetchResult.notFound false) []
        ⟨42, some 100, some 200⟩
        = Except.ok (⟨42, some 100, some 200, none⟩, [], 0) := by
  refine ⟨rfl, rfl, by decide, fun g => rfl, rfl, rfl⟩

/-- C2: claiming an already-owned game. The sweep of ItchClaim.claim skips
it cleanly (owned set unchanged, no claim submission attempted), but
ItchClaim.claim_url on an already-owned url executes
`print(f"{game.url} already claimed")` before the local `game` is assigned,
raising UnboundLocalError instead of returning; the owned set is still
unchanged and no claim submission is issued. Evaluated at the concrete
owned game ownedG. -/
theorem c2_claim_owned_noop :
    claim_sweep (fun _ => true) [ownedG] [ownedG] = ([ownedG], [])
    ∧ owns_game [ownedG] ownedG = true
    ∧ claim_url (fun o _ => o) [ownedG] "https://a.itch.io/owned"
        = (.unboundLocal, false, [ownedG]) := by
  refine ⟨by decide, by decide, by decide⟩

/-- C3 counterexample: a sale whose start lies in the future is reported
active. At now = 5, upSale (start 10, end 20) has is_upcoming true, yet
is_active also answers true, refuting "active exactly when
start ≤ now < end" and "a Sale with now < start is never reported
active". -/
theorem c3_upcoming_sale_reported_active :
    ItchSale.is_upcoming 5 upSale = some true
    ∧ ItchSale.is_active 5 upSale = some true := by
  refine ⟨rfl, rfl⟩

/-- C3 amended: for a sale with both timestamps set, is_active is true
exactly when now < end — the start bound is not consulted — and
is_upcoming is true exactly when now < start. Hence a sale with
now ≥ end is never reported active, but an upcoming sale is also reported
active whenever now < end; the claimed window start ≤ now < end instead
coincides with "active and not upcoming". -/
theorem c3_status_derivation (now a b : Int) (s : ItchSale)
    (ha : s.start = some a) (hb : s.end_ = some b) :
    ItchSale.is_active now s = some (decide (now < b))
    ∧ ItchSale.is_upcoming now s = some (decide (now < a))
    ∧ (b ≤ now → ItchSale.is_active now s = some false)
    ∧ ((ItchSale.is_active now s = some true
          ∧ ItchSale.is_upcoming now s = some false)
        ↔ (a ≤ now ∧ now < b)) := by
  refine ⟨by simp [ItchSale.is_active, hb], by simp [ItchSale.is_upcoming, ha], ?_, ?_⟩
  · intro h
    simp [ItchSale.is_active, hb]
    omega
  · simp [ItchSale.is_active, ItchSale.is_upcoming, ha, hb]
    omega

/-- C3 witness: the amended status derivation evaluated at now = 15 on
upSale. -/
theorem c3_status_derivation_witness :
    ItchSale.is_active 15 upSale = some (decide ((15:Int) < 20))
    ∧ ItchSale.is_upcoming 15 upSale = some (decide ((15:Int) < 10))
    ∧ ((20:Int) ≤ 15 → ItchSale.is_active 15 upSale = some false)
    ∧ ((ItchSale.is_active 15 upSale = some true
          ∧ ItchSale.is_upcoming 15 upSale = some false)
        ↔ ((10:Int) ≤ 15 ∧ (15:Int) < 20)) :=
  c3_status_derivation 15 10 20 upSale rfl rfl

/-- C10: when the download-URL negotiation response carries an errors
field, downloadable_files returns no uploads list and requests no further
page; otherwise it fetches exactly the negotiated page and returns one
entry per upload div found there. -/
theorem c10_downloadable_files (divsOn : String → List String)
    (parseDiv : String → Int) (resp : NegotiationResp) :
    (∀ errs, resp = .withErrors errs →
        ItchGame.downloadable_files divsOn parseDiv resp = (none, []))
    ∧ (∀ u, resp = .okUrl u →
        ItchGame.downloadable_files divsOn parseDiv resp
          = (some ((divsOn u).map parseDiv), [u])
        ∧ (ItchGame.downloadable_files divsOn parseDiv resp).1.map List.length
          = some (divsOn u).length) := by
  constructor
  · rintro errs rfl
    rfl
  · rintro u rfl
    exact ⟨rfl, by simp [ItchGame.downloadable_files]⟩

/-- C10 witness: downloadable_files evaluated on an error response and on a
successful negotiation yielding a page with two upload divs. -/
theorem c10_downloadable_files_witness :
    ItchGame.downloadable_files (fun _ => ["d1", "d2"]) (fun _ => (0:Int))
        (.withErrors ["invalid game"]) = (none, [])
    ∧ (ItchGame.downloadable_files (fun _ => ["d1", "d2"]) (fun _ => (0:Int))
          (.okUrl "https://itch.io/dl") = (some [0, 0], ["https://itch.io/dl"])
        ∧ (ItchGame.downloadable_files (fun _ => ["d1", "d2"]) (fun _ => (0:Int))
            (.okUrl "https://itch.io/dl")).1.map List.length = some 2) :=
  ⟨(c10_downloadable_files _ _ _).1 ["invalid game"] rfl,
   (c10_downloadable_files _ _ _).2 "https://itch.io/dl" rfl⟩

/-- A response whose status neither terminates the retry loop (200, 404,
301) nor is rate limiting (429): the ones counted against the attempt
ceiling. -/
def otherStatus (r : Resp) : Bool :=
  decide (¬(r.status = 200 ∨ r.status = 404 ∨ r.status = 301 ∨ r.status = 429))

theorem send_web_exhausted_count (rs : List Resp) :
    ∀ count r2, send_web rs count = .exhausted r2 →
      100 ≤ count + rs.countP otherStatus := by
  induction rs with
  | nil =>
      intro c r2 h
      simp [send_web] at h
  | cons r rest ih =>
      intro c r2 h
      simp only [send_web] at h
      split_ifs at h with h1 h2 h3
      · have hcount := ih c r2 h
        have hother : otherStatus r = false := by
          simp [otherStatus, h2]
        rw [List.countP_cons, hother]
        simp
        omega
      · have hother : otherStatus r = true := by
          simp only [otherStatus, decide_eq_true_eq]
          intro hcon
          rcases hcon with ha | ha | ha | ha
          · exact h1 (Or.inl ha)
          · exact h1 (Or.inr (Or.inl ha))
          · exact h1 (Or.inr (Or.inr ha))
          · exact h2 ha
        rw [List.countP_cons, hother]
        simp
        omega
      · have hcount := ih (c + 1) r2 h
        have hother : otherStatus r = true := by
          simp only [otherStatus, decide_eq_true_eq]
          intro hcon
          rcases hcon with ha | ha | ha | ha
          · exact h1 (Or.inl ha)
          · exact h1 (Or.inr (Or.inl ha))
          · exact h1 (Or.inr (Or.inr ha))
          · exact h2 ha
        rw [List.countP_cons, hother]
        simp
        omega

/-- C4: the retry client's policy. A response with status 200, 404 or 301
is returned to the caller at once; a 429 retries without touching the
attempt count; any other status increments the count, and the response on
which the count reaches the ceiling of 100 makes the loop abort fatally
(exit(1)) carrying that response's status and body, never returning a
response; reaching the exhausted outcome requires at least 100 counted
attempts. -/
theorem c4_send_web_policy (r : Resp) (rest : List Resp) (count : Nat) :
    ((r.status = 200 ∨ r.status = 404 ∨ r.status = 301) →
        send_web (r :: rest) count = .ok r)
    ∧ (r.status = 429 → send_web (r :: rest) count = send_web rest count)
    ∧ (¬(r.status = 200 ∨ r.status = 404 ∨ r.status = 301) → r.status ≠ 429 →
        count + 1 = 100 → send_web (r :: rest) count = .exhausted r)
    ∧ (¬(r.status = 200 ∨ r.status = 404 ∨ r.status = 301) → r.status ≠ 429 →
        count + 1 ≠ 100 → send_web (r :: rest) count = send_web rest (count + 1))
    ∧ (∀ rs c r2, send_web rs c = SendResult.exhausted r2 →
        100 ≤ c + rs.countP otherStatus)
    ∧ (∀ rs c r2 r3, send_web rs c = SendResult.exhausted r2 →
        send_web rs c ≠ SendResult.ok r3) := by
  refine ⟨?_, ?_, ?_, ?_, fun rs c r2 h => send_web_exhausted_count rs c r2 h, ?_⟩
  · intro h1
    simp [send_web, h1]
  · intro h2
    have h1 : ¬(r.status = 200 ∨ r.status = 404 ∨ r.status = 301) := by
      simp [h2]
    simp [send_web, h1, h2]
  · intro h1 h2 h3
    simp [send_web, h1, h2, h3]
  · intro h1 h2 h3
    simp [send_web, h1, h2, h3]
  · intro rs c r2 r3 h hh
    rw [h] at hh
    exact SendResult.noConfusion hh

/-- C4 witness: the policy evaluated on concrete traces — an immediate 200,
a 429 retry at count 7, the 100th counted failure aborting, a counted
failure at count 0, the exhaustion bound on a 100-failure trace, and
exhaustion not being an ok response. -/
theorem c4_send_web_policy_witness :
    send_web [⟨200, "ok"⟩] 0 = .ok ⟨200, "ok"⟩
    ∧ send_web [⟨429, "busy"⟩, ⟨200, "ok"⟩] 7 = send_web [⟨200, "ok"⟩] 7
    ∧ send_web [⟨500, "boom"⟩] 99 = .exhausted ⟨500, "boom"⟩
    ∧ send_web [⟨500, "boom"⟩, ⟨200, "ok"⟩] 0 = send_web [⟨200, "ok"⟩] 1
    ∧ 100 ≤ 99 + ([(⟨500, "boom"⟩ : Resp)]).countP otherStatus
    ∧ send_web [(⟨500, "boom"⟩ : Resp)] 99 ≠ SendResult.ok ⟨200, "ok"⟩ :=
  ⟨(c4_send_web_policy ⟨200, "ok"⟩ [] 0).1 (Or.inl rfl),
   (c4_send_web_policy ⟨429, "busy"⟩ [⟨200, "ok"⟩] 7).2.1 rfl,
   (c4_send_web_policy ⟨500, "boom"⟩ [] 99).2.2.1 (by decide) (by decide) rfl,
   (c4_send_web_policy ⟨500, "boom"⟩ [⟨200, "ok"⟩] 0).2.2.2.1
      (by decide) (by decide) (by decide),
   (c4_send_web_policy ⟨1, ""⟩ [] 0).2.2.2.2.1 [⟨500, "boom"⟩] 99 ⟨500, "boom"⟩
      (by decide),
   (c4_send_web_policy ⟨1, ""⟩ [] 0).2.2.2.2.2 [⟨500, "boom"⟩] 99 ⟨500, "boom"⟩
      ⟨200, "ok"⟩ (by decide)⟩

/-- C5: the claim-submission verification of _claim_game. Landing on the
itch.io home page with the remote ownership probe answering owned is
classified as a success (already claimed) and the game is appended to
owned_games; landing on the home page with the probe answering unowned is
an UnknownClaimFailure and owned_games is untouched; landing anywhere else
is a success and the game is appended. -/
theorem c5_claim_verification (game : GameRef) (landing : String)
    (ownsOnline : Bool) (owned : List GameRef) :
    (landing = "https://itch.io/" → ownsOnline = true →
        (claim_game_verify game landing ownsOnline owned).1.isSuccess = true
        ∧ game ∈ (claim_game_verify game landing ownsOnline owned).2)
    ∧ (landing = "https://itch.io/" → ownsOnline = false →
        (claim_game_verify game landing ownsOnline owned).1
            = .unknownClaimFailure
        ∧ (claim_game_verify game landing ownsOnline owned).2 = owned)
    ∧ (landing ≠ "https://itch.io/" →
        (claim_game_verify game landing ownsOnline owned).1 = .success
        ∧ game ∈ (claim_game_verify game landing ownsOnline owned).2) := by
  refine ⟨?_, ?_, ?_⟩
  · rintro rfl rfl
    exact ⟨rfl, by simp [claim_game_verify, ClaimOutcome.isSuccess]⟩
  · rintro rfl rfl
    exact ⟨rfl, rfl⟩
  · intro h
    refine ⟨by simp [claim_game_verify, h], by simp [claim_game_verify, h]⟩

/-- C5 witness: the three verification outcomes on the concrete game
ownedG with an empty owned list. -/
theorem c5_claim_verification_witness :
    ((claim_game_verify ownedG "https://itch.io/" true []).1.isSuccess = true
        ∧ ownedG ∈ (claim_game_verify ownedG "https://itch.io/" true []).2)
    ∧ ((claim_game_verify ownedG "https://itch.io/" false []).1
          = .unknownClaimFailure
        ∧ (claim_game_verify ownedG "https://itch.io/" false []).2 = [])
    ∧ ((claim_game_verify ownedG "https://a.itch.io/sample/download" false []).1
          = .success
        ∧ ownedG ∈ (claim_game_verify ownedG "https://a.itch.io/sample/download"
            false []).2) :=
  ⟨(c5_claim_verification ownedG "https://itch.io/" true []).1 rfl rfl,
   (c5_claim_verification ownedG "https://itch.io/" false []).2.1 rfl rfl,
   (c5_claim_verification ownedG "https://a.itch.io/sample/download" false []).2.2
      (by decide)⟩

theorem init_notFound (fetch : Int → FetchResult) (n : Int) (red : Bool)
    (h : fetch n = .notFound red) :
    ItchSale.init fetch n none none
      = .ok ⟨n, none, none,
          some (if red then "404_NOT_FOUND" else "NO_MORE_SALES_AVAILABLE")⟩ := by
  unfold ItchSale.init ItchSale.get_data_online
  rw [if_pos (Or.inl rfl)]
  simp only [h]
  cases red <;> rfl

theorem init_ok_err_none (fetch : Int → FetchResult) (m : Int) (s : ItchSale)
    (hinit : ItchSale.init fetch m none none = .ok s) (herr : s.err = none) :
    s.id = m ∧ ∃ a b, fetch m = .page m a b
      ∧ s.start = some a ∧ s.end_ = some b := by
  rcases hf : fetch m with red | ⟨did, a, b⟩
  · have h1 := init_notFound fetch m red hf
    rw [hinit] at h1
    injection h1 with h2
    rw [h2] at herr
    exact absurd herr (by simp)
  · unfold ItchSale.init ItchSale.get_data_online at hinit
    rw [if_pos (Or.inl rfl)] at hinit
    rw [show ({ id := m, start := none, end_ := none, err := none } : ItchSale).id
          = m from rfl] at hinit
    rw [hf] at hinit
    simp only [ne_eq] at hinit
    split_ifs at hinit with hmd
    subst hmd
    injection hinit with h2
    rw [← h2]
    exact ⟨rfl, a, b, rfl, rfl, rfl⟩

/-- C6: classification of a 404 sale page. When the response's final url
equals the requested sale url (no redirect) the error is
NO_MORE_SALES_AVAILABLE, the crawl's terminal signal, and the crawl stops
with the cursor still at n; when a redirect occurred the error is
404_NOT_FOUND, and the crawl skips exactly that id and continues from
n + 1. The two classifications are exhaustive and mutually exclusive for a
404. The crawl-advance behavior is the spec-modelled get_all_sales. -/
theorem c6_notfound_classification (fetch : Int → FetchResult) (s : ItchSale)
    (red : Bool) (fuel : Nat) (n : Int) :
    (fetch s.id = .notFound red →
        (s.get_data_online fetch
            = .ok { s with err := some "NO_MORE_SALES_AVAILABLE" } ↔ red = false)
        ∧ (s.get_data_online fetch
            = .ok { s with err := some "404_NOT_FOUND" } ↔ red = true))
    ∧ (fetch n = .notFound false →
        get_all_sales fetch (fuel + 1) n = ⟨[n], [], [], n, true⟩)
    ∧ (fetch n = .notFound true →
        get_all_sales fetch (fuel + 1) n
          = ⟨n :: (get_all_sales fetch fuel (n + 1)).requested,
             (get_all_sales fetch fuel (n + 1)).persisted,
             n :: (get_all_sales fetch fuel (n + 1)).processed,
             (get_all_sales fetch fuel (n + 1)).finalCursor,
             (get_all_sales fetch fuel (n + 1)).done⟩) := by
  refine ⟨?_, ?_, ?_⟩
  · intro h
    unfold ItchSale.get_data_online
    simp only [h]
    cases red <;> simp
  · intro h
    have hi := init_notFound fetch n false h
    simp only [get_all_sales, hi]
    rfl
  · intro h
    have hi := init_notFound fetch n true h
    simp only [get_all_sales, hi]
    simp

/-- C6 witness: the classification and the two crawl behaviors on concrete
fetch environments (a 404 without redirect at id 43; a 404 with redirect at
id 43 followed by the terminal 404 at id 44). -/
theorem c6_notfound_classification_witness :
    ((sale0.get_data_online (fun _ => FetchResult.notFound false)
        = .ok { sale0 with err := some "NO_MORE_SALES_AVAILABLE" } ↔ False = false)
      ∧ (sale0.get_data_online (fun _ => FetchResult.notFound false)
        = .ok { sale0 with err := some "404_NOT_FOUND" } ↔ False = true))
    ∧ get_all_sales (fun _ => FetchResult.notFound false) 4 43 = ⟨[43], [], [], 43, true⟩
    ∧ get_all_sales (fun i => if i = 43 then FetchResult.notFound true
          else FetchResult.notFound false) 4 43
        = ⟨43 :: (get_all_sales (fun i => if i = 43 then FetchResult.notFound true
              else FetchResult.notFound false) 3 44).requested,
           (get_all_sales (fun i => if i = 43 then FetchResult.notFound true
              else FetchResult.notFound false) 3 44).persisted,
           43 :: (get_all_sales (fun i => if i = 43 then FetchResult.notFound true
              else FetchResult.notFound false) 3 44).processed,
           (get_all_sales (fun i => if i = 43 then FetchResult.notFound true
              else FetchResult.notFound false) 3 44).finalCursor,
           (get_all_sales (fun i => if i = 43 then FetchResult.notFound true
              else FetchResult.notFound false) 3 44).done⟩ :=
  ⟨by
    have := (c6_notfound_classification (fun _ => FetchResult.notFound false)
      sale0 false 0 0).1 rfl
    simpa using this,
   (c6_notfound_classification (fun _ => FetchResult.notFound false)
      sale0 false 3 43).2.1 rfl,
   (c6_notfound_classification (fun i => if i = 43 then FetchResult.notFound true
      else FetchResult.notFound false) sale0 true 3 43).2.2 (by decide)⟩

theorem get_all_sales_persisted_spec (fetch : Int → FetchResult) :
    ∀ fuel (m : Int) s2, s2 ∈ (get_all_sales fetch fuel m).persisted →
      s2.err = none ∧ ∃ a2 b2, fetch s2.id = .page s2.id a2 b2
        ∧ s2.start = some a2 ∧ s2.end_ = some b2 := by
  intro fuel
  induction fuel with
  | zero =>
      intro m s2 h
      simp [get_all_sales] at h
  | succ fuel ih =>
      intro m s2 h
      rw [get_all_sales] at h
      rcases hinit : ItchSale.init fetch m none none with e | s
      · rw [hinit] at h
        exact ih (m + 1) s2 h
      · rw [hinit] at h
        dsimp only [] at h
        by_cases hterm : s.err = some "NO_MORE_SALES_AVAILABLE"
        · rw [if_pos hterm] at h
          simp at h
        · rw [if_neg hterm] at h
          by_cases hsome : s.err.isSome = true
          · rw [if_pos hsome] at h
            exact ih (m + 1) s2 h
          · rw [if_neg hsome] at h
            rcases List.mem_cons.mp h with rfl | h2
            · have herr : s2.err = none := by
                rcases hs2 : s2.err with _ | v
                · rfl
                · rw [hs2] at hsome
                  exact absurd rfl hsome
              obtain ⟨hid, a2, b2, hp, hs, he⟩ :=
                init_ok_err_none fetch m s2 hinit herr
              rw [← hid] at hp
              exact ⟨herr, a2, b2, hp, hs, he⟩
            · exact ih (m + 1) s2 h2

/-- C7: a fetched page whose declared id differs from the requested id n
makes ItchSale.__init__ raise (SaleIdMismatch as a ValueError); in the
spec-modelled crawl this is caught at the granularity of that id: n is
requested, nothing is persisted for it, the cursor advances, and the crawl
continues — it is never aborted. Moreover every sale the crawl persists
parses to a page whose declared id equals the sale's own id, so mismatched
data is never accepted: no persisted sale has id n. -/
theorem c7_sale_id_mismatch (fetch : Int → FetchResult) (fuel : Nat)
    (n d a b : Int) :
    (fetch n = .page d a b → d ≠ n →
        ItchSale.init fetch n none none = .error .valueError)
    ∧ (fetch n = .page d a b → d ≠ n →
        get_all_sales fetch (fuel + 1) n
          = ⟨n :: (get_all_sales fetch fuel (n + 1)).requested,
             (get_all_sales fetch fuel (n + 1)).persisted,
             n :: (get_all_sales fetch fuel (n + 1)).processed,
             (get_all_sales fetch fuel (n + 1)).finalCursor,
             (get_all_sales fetch fuel (n + 1)).done⟩)
    ∧ (∀ fuel2 (m : Int) s2, s2 ∈ (get_all_sales fetch fuel2 m).persisted →
        ∃ a2 b2, fetch s2.id = .page s2.id a2 b2)
    ∧ (fetch n = .page d a b → d ≠ n →
        ∀ fuel2 (m : Int) s2, s2 ∈ (get_all_sales fetch fuel2 m).persisted →
          s2.id ≠ n) := by
  have herror : fetch n = .page d a b → d ≠ n →
      ItchSale.init fetch n none none = .error .valueError := by
    intro hf hd
    unfold ItchSale.init ItchSale.get_data_online
    rw [if_pos (Or.inl rfl)]
    rw [show ({ id := n, start := none, end_ := none, err := none } : ItchSale).id
          = n from rfl]
    rw [hf]
    simp only [ne_eq]
    rw [if_pos]
    exact fun hc => hd hc.symm
  refine ⟨herror, ?_, ?_, ?_⟩
  · intro hf hd
    rw [get_all_sales, herror hf hd]
  · intro fuel2 m s2 h
    obtain ⟨-, a2, b2, hp, -, -⟩ := get_all_sales_persisted_spec fetch fuel2 m s2 h
    exact ⟨a2, b2, hp⟩
  · intro hf hd fuel2 m s2 h hid
    obtain ⟨-, a2, b2, hp, -, -⟩ := get_all_sales_persisted_spec fetch fuel2 m s2 h
    rw [hid, hf] at hp
    injection hp with h1 h2 h3
    exact hd h1

/-- C7 witness: a fetch environment where id 9 declares id 10 — the
constructor errors, the crawl skips id 9 and continues, and no persisted
sale has id 9. -/
theorem c7_sale_id_mismatch_witness :
    ItchSale.init (fun i => if i = 9 then FetchResult.page 10 0 5
        else FetchResult.notFound false) 9 none none = .error .valueError
    ∧ get_all_sales (fun i => if i = 9 then FetchResult.page 10 0 5
          else FetchResult.notFound false) 3 9
        = ⟨9 :: (get_all_sales (fun i => if i = 9 then FetchResult.page 10 0 5
              else FetchResult.notFound false) 2 10).requested,
           (get_all_sales (fun i => if i = 9 then FetchResult.page 10 0 5
              else FetchResult.notFound false) 2 10).persisted,
           9 :: (get_all_sales (fun i => if i = 9 then FetchResult.page 10 0 5
              else FetchResult.notFound false) 2 10).processed,
           (get_all_sales (fun i => if i = 9 then FetchResult.page 10 0 5
              else FetchResult.notFound false) 2 10).finalCursor,
           (get_all_sales (fun i => if i = 9 then FetchResult.page 10 0 5
              else FetchResult.notFound false) 2 10).done⟩
    ∧ (∀ s2, s2 ∈ (get_all_sales (fun i => if i = 9 then FetchResult.page 10 0 5
          else FetchResult.notFound false) 3 9).persisted → s2.id ≠ 9) :=
  ⟨(c7_sale_id_mismatch (fun i => if i = 9 then FetchResult.page 10 0 5
      else FetchResult.notFound false) 0 9 10 0 5).1 (by decide) (by decide),
   (c7_sale_id_mismatch (fun i => if i = 9 then FetchResult.page 10 0 5
      else FetchResult.notFound false) 2 9 10 0 5).2.1 (by decide) (by decide),
   fun s2 h => (c7_sale_id_mismatch (fun i => if i = 9 then FetchResult.page 10 0 5
      else FetchResult.notFound false) 0 9 10 0 5).2.2.2 (by decide) (by decide)
      3 9 s2 h⟩

theorem cacheLookup_cons_self (c : SaleCache) (id : Int) (s : ItchSale) :
    cacheLookup ((id, s) :: c) id = some s := by
  simp [cacheLookup]

theorem from_dict_eq_miss (fetch : Int → FetchResult) (cache : SaleCache)
    (d : SaleDict) (hmiss : d.start = none ∨ d.end_ = none) :
    ItchSale.from_dict fetch cache d = from_dict_miss fetch cache d := by
  obtain ⟨did, ds, de⟩ := d
  rcases ds with _ | a2
  · rcases de with _ | b2 <;> rfl
  · rcases de with _ | b2
    · rfl
    · exact absurd hmiss (by simp)

theorem from_dict_miss_once (fetch : Int → FetchResult) (cache : SaleCache)
    (d : SaleDict) (s3 : ItchSale) (c2 : SaleCache) (k : Nat)
    (h1 : from_dict_miss fetch cache d = .ok (s3, c2, k)) :
    from_dict_miss fetch c2 d = .ok (s3, c2, 0) := by
  unfold from_dict_miss at h1 ⊢
  rcases hlk : cacheLookup cache d.id with _ | sc
  · rw [hlk] at h1
    dsimp only [] at h1
    rcases hinit : ItchSale.init fetch d.id none none with e | sale
    · rw [hinit] at h1
      dsimp only [] at h1
      exact absurd h1 (by simp)
    · rw [hinit] at h1
      dsimp only [] at h1
      rcases hfix : repair_fix d sale with e2 | sale2
      · rw [hfix] at h1
        dsimp only [] at h1
        exact absurd h1 (by simp)
      · rw [hfix] at h1
        dsimp only [] at h1
        simp only [Except.ok.injEq, Prod.mk.injEq] at h1
        obtain ⟨h31, h32, h33⟩ := h1
        subst h31
        subst h32
        rw [cacheLookup_cons_self]
  · rw [hlk] at h1
    dsimp only [] at h1
    simp only [Except.ok.injEq, Prod.mk.injEq] at h1
    obtain ⟨h31, h32, h33⟩ := h1
    subst h31
    subst h32
    rw [hlk]

/-- C8 counterexample: the repaired Sale of a removed page carries no
removed marking. The record {id 5, start 100, no end} repaired against a
404ing origin and the same record repaired against a live page declaring
start = end = 100 produce the very same ItchSale — err is STATUS_UPDATED in
both — so the claim's "marked removed = true" is false: removal leaves no
mark on the repaired instance. -/
theorem c8_removed_repair_not_marked :
    ItchSale.from_dict (fun _ => FetchResult.notFound false) [] ⟨5, some 100, none⟩
      = .ok (⟨5, some 100, some 100, some "STATUS_UPDATED"⟩,
             [(5, ⟨5, some 100, some 100, some "STATUS_UPDATED"⟩)], 1)
    ∧ ItchSale.from_dict (fun _ => FetchResult.page 5 100 100) [] ⟨5, some 100, none⟩
      = .ok (⟨5, some 100, some 100, some "STATUS_UPDATED"⟩,
             [(5, ⟨5, some 100, some 100, some "STATUS_UPDATED"⟩)], 1) := by
  refine ⟨rfl, rfl⟩

/-- C8 amended: loading a persisted Sale record missing start or end
triggers repair at most once per run. A cache hit returns the cached
instance with no refetch; a completed repair caches its result, so an
immediate second from_dict call on the same record performs zero refetches
and returns the very instance; and when the refetch finds the page removed
(404), the repaired Sale is synthesized with start = end taken from
whichever field the record held — but it is marked err = STATUS_UPDATED
like every repaired Sale, not with a distinct removed flag. -/
theorem c8_legacy_repair (fetch : Int → FetchResult) (cache : SaleCache)
    (d : SaleDict) (s s3 : ItchSale) (c2 : SaleCache) (k : Nat)
    (id a : Int) (red : Bool) :
    ((d.start = none ∨ d.end_ = none) → cacheLookup cache d.id = some s →
        ItchSale.from_dict fetch cache d = .ok (s, cache, 0))
    ∧ ((d.start = none ∨ d.end_ = none) →
        ItchSale.from_dict fetch cache d = .ok (s3, c2, k) →
        ItchSale.from_dict fetch c2 d = .ok (s3, c2, 0))
    ∧ (fetch id = .notFound red →
        ItchSale.from_dict fetch [] ⟨id, some a, none⟩
          = .ok (⟨id, some a, some a, some "STATUS_UPDATED"⟩,
                 [(id, ⟨id, some a, some a, some "STATUS_UPDATED"⟩)], 1))
    ∧ (fetch id = .notFound red →
        ItchSale.from_dict fetch [] ⟨id, none, some a⟩
          = .ok (⟨id, some a, some a, some "STATUS_UPDATED"⟩,
                 [(id, ⟨id, some a, some a, some "STATUS_UPDATED"⟩)], 1)) := by
  refine ⟨?_, ?_, ?_, ?_⟩
  · intro hmiss hc
    rw [from_dict_eq_miss fetch cache d hmiss]
    unfold from_dict_miss
    rw [hc]
  · intro hmiss h1
    rw [from_dict_eq_miss fetch cache d hmiss] at h1
    rw [from_dict_eq_miss fetch c2 d hmiss]
    exact from_dict_miss_once fetch cache d s3 c2 k h1
  · intro h
    rw [from_dict_eq_miss fetch [] ⟨id, some a, none⟩ (Or.inr rfl)]
    unfold from_dict_miss
    dsimp only [cacheLookup, List.find?, Option.map]
    rw [init_notFound fetch id red h]
    rfl
  · intro h
    rw [from_dict_eq_miss fetch [] ⟨id, none, some a⟩ (Or.inl rfl)]
    unfold from_dict_miss
    dsimp only [cacheLookup, List.find?, Option.map]
    rw [init_notFound fetch id red h]
    rfl

/-- A previously repaired sale sitting in cached_sales. -/
def cs8 : ItchSale := ⟨9, some 1, some 2, some "STATUS_UPDATED"⟩

/-- The repaired instance for record {id 5, start 100} against a 404ing
origin. -/
def rs8 : ItchSale := ⟨5, some 100, some 100, some "STATUS_UPDATED"⟩

/-- C8 witness: the repair clauses evaluated at concrete records — a cache
hit at id 9, a second lookup of id 5 after its repair, and the start-only
and end-only synthesized repairs at id 7. -/
theorem c8_legacy_repair_witness :
    ItchSale.from_dict (fun _ => FetchResult.notFound false) [(9, cs8)]
        ⟨9, some 50, none⟩ = .ok (cs8, [(9, cs8)], 0)
    ∧ ItchSale.from_dict (fun _ => FetchResult.notFound false) [(5, rs8)]
        ⟨5, some 100, none⟩ = .ok (rs8, [(5, rs8)], 0)
    ∧ ItchSale.from_dict (fun _ => FetchResult.notFound false) [] ⟨7, some 33, none⟩
        = .ok (⟨7, some 33, some 33, some "STATUS_UPDATED"⟩,
               [(7, ⟨7, some 33, some 33, some "STATUS_UPDATED"⟩)], 1)
    ∧ ItchSale.from_dict (fun _ => FetchResult.notFound false) [] ⟨7, none, some 33⟩
        = .ok (⟨7, some 33, some 33, some "STATUS_UPDATED"⟩,
               [(7, ⟨7, some 33, some 33, some "STATUS_UPDATED"⟩)], 1) :=
  ⟨(c8_legacy_repair (fun _ => FetchResult.notFound false) [(9, cs8)]
      ⟨9, some 50, none⟩ cs8 rs8 [] 0 7 33 false).1 (Or.inr rfl) rfl,
   (c8_legacy_repair (fun _ => FetchResult.notFound false) []
      ⟨5, some 100, none⟩ cs8 rs8 [(5, rs8)] 1 7 33 false).2.1 (Or.inr rfl) rfl,
   (c8_legacy_repair (fun _ => FetchResult.notFound false) [(9, cs8)]
      ⟨9, some 50, none⟩ cs8 rs8 [] 0 7 33 false).2.2.1 rfl,
   (c8_legacy_repair (fun _ => FetchResult.notFound false) [(9, cs8)]
      ⟨9, some 50, none⟩ cs8 rs8 [] 0 7 33 false).2.2.2 rfl⟩

theorem get_all_sales_cursor_ge (fetch : Int → FetchResult) :
    ∀ fuel (n : Int), n ≤ (get_all_sales fetch fuel n).finalCursor := by
  intro fuel
  induction fuel with
  | zero =>
      intro n
      exact le_refl n
  | succ fuel ih =>
      intro n
      rw [get_all_sales]
      split
      · dsimp only []
        have := ih (n + 1)
        omega
      · split_ifs with hterm h2
        · exact le_refl n
        · dsimp only []
          have := ih (n + 1)
          omega
        · dsimp only []
          have := ih (n + 1)
          omega

theorem get_all_sales_requested_ge (fetch : Int → FetchResult) :
    ∀ fuel (n i : Int), i ∈ (get_all_sales fetch fuel n).requested → n ≤ i := by
  intro fuel
  induction fuel with
  | zero =>
      intro n i h
      simp [get_all_sales] at h
  | succ fuel ih =>
      intro n i h
      rw [get_all_sales] at h
      split at h
      · dsimp only [] at h
        rcases List.mem_cons.mp h with rfl | h2
        · exact le_refl i
        · have := ih (n + 1) i h2
          omega
      · split_ifs at h with hterm hs
        · have : i = n := by simpa using h
          omega
        · dsimp only [] at h
          rcases List.mem_cons.mp h with rfl | h2
          · exact le_refl i
          · have := ih (n + 1) i h2
            omega
        · dsimp only [] at h
          rcases List.mem_cons.mp h with rfl | h2
          · exact le_refl i
          · have := ih (n + 1) i h2
            omega

theorem get_all_sales_processed_ge (fetch : Int → FetchResult) :
    ∀ fuel (n j : Int), j ∈ (get_all_sales fetch fuel n).processed → n ≤ j := by
  intro fuel
  induction fuel with
  | zero =>
      intro n j h
      simp [get_all_sales] at h
  | succ fuel ih =>
      intro n j h
      rw [get_all_sales] at h
      split at h
      · dsimp only [] at h
        rcases List.mem_cons.mp h with rfl | h2
        · exact le_refl j
        · have := ih (n + 1) j h2
          omega
      · split_ifs at h with hterm hs
        · simp at h
        · dsimp only [] at h
          rcases List.mem_cons.mp h with rfl | h2
          · exact le_refl j
          · have := ih (n + 1) j h2
            omega
        · dsimp only [] at h
          rcases List.mem_cons.mp h with rfl | h2
          · exact le_refl j
          · have := ih (n + 1) j h2
            omega

theorem get_all_sales_done_max (fetch : Int → FetchResult) :
    ∀ fuel (n : Int) r, get_all_sales fetch fuel n = r → r.done = true →
      (r.processed = [] ∧ r.finalCursor = n)
      ∨ ∃ m, m ∈ r.processed ∧ (∀ j ∈ r.processed, j ≤ m)
          ∧ r.finalCursor = m + 1 := by
  intro fuel
  induction fuel with
  | zero =>
      intro n r hr hd
      rw [← hr] at hd
      simp [get_all_sales] at hd
  | succ fuel ih =>
      intro n r hr hd
      rw [get_all_sales] at hr
      split at hr
      · subst hr
        dsimp only [] at hd ⊢
        rcases ih (n + 1) (get_all_sales fetch fuel (n + 1)) rfl hd with
          ⟨hp, hc⟩ | ⟨m, hm, hmax, hc⟩
        · right
          refine ⟨n, List.mem_cons_self n _, ?_, by rw [hc]⟩
          intro j hj
          rcases List.mem_cons.mp hj with rfl | hj2
          · exact le_refl j
          · rw [hp] at hj2
            simp at hj2
        · right
          have hnm : n ≤ m := by
            have := get_all_sales_processed_ge fetch fuel (n + 1) m hm
            omega
          refine ⟨m, List.mem_cons_of_mem n hm, ?_, hc⟩
          intro j hj
          rcases List.mem_cons.mp hj with rfl | hj2
          · exact hnm
          · exact hmax j hj2
      · split_ifs at hr with hterm hs
        · subst hr
          exact Or.inl ⟨rfl, rfl⟩
        · subst hr
          dsimp only [] at hd ⊢
          rcases ih (n + 1) (get_all_sales fetch fuel (n + 1)) rfl hd with
            ⟨hp, hc⟩ | ⟨m, hm, hmax, hc⟩
          · right
            refine ⟨n, List.mem_cons_self n _, ?_, by rw [hc]⟩
            intro j hj
            rcases List.mem_cons.mp hj with rfl | hj2
            · exact le_refl j
            · rw [hp] at hj2
              simp at hj2
          · right
            have hnm : n ≤ m := by
              have := get_all_sales_processed_ge fetch fuel (n + 1) m hm
              omega
            refine ⟨m, List.mem_cons_of_mem n hm, ?_, hc⟩
            intro j hj
            rcases List.mem_cons.mp hj with rfl | hj2
            · exact hnm
            · exact hmax j hj2
        · subst hr
          dsimp only [] at hd ⊢
          rcases ih (n + 1) (get_all_sales fetch fuel (n + 1)) rfl hd with
            ⟨hp, hc⟩ | ⟨m, hm, hmax, hc⟩
          · right
            refine ⟨n, List.mem_cons_self n _, ?_, by rw [hc]⟩
            intro j hj
            rcases List.mem_cons.mp hj with rfl | hj2
            · exact le_refl j
            · rw [hp] at hj2
              simp at hj2
          · right
            have hnm : n ≤ m := by
              have := get_all_sales_processed_ge fetch fuel (n + 1) m hm
              omega
            refine ⟨m, List.mem_cons_of_mem n hm, ?_, hc⟩
            intro j hj
            rcases List.mem_cons.mp hj with rfl | hj2
            · exact hnm
            · exact hmax j hj2

theorem get_all_sales_fuel_mono (fetch : Int → FetchResult) :
    ∀ fuel fuel2 (n : Int), fuel ≤ fuel2 →
      (get_all_sales fetch fuel n).finalCursor
        ≤ (get_all_sales fetch fuel2 n).finalCursor := by
  intro fuel
  induction fuel with
  | zero =>
      intro fuel2 n h
      have h0 : (get_all_sales fetch 0 n).finalCursor = n := rfl
      rw [h0]
      exact get_all_sales_cursor_ge fetch fuel2 n
  | succ fuel ih =>
      intro fuel2 n h
      obtain ⟨f2, rfl⟩ : ∃ f2, fuel2 = f2 + 1 := ⟨fuel2 - 1, by omega⟩
      rw [get_all_sales, get_all_sales]
      cases hinit : ItchSale.init fetch n none none with
      | error e =>
          dsimp only []
          exact ih f2 (n + 1) (by omega)
      | ok s =>
          dsimp only []
          split_ifs with hterm hs
          · exact le_refl n
          · exact ih f2 (n + 1) (by omega)
          · exact ih f2 (n + 1) (by omega)

/-- The concrete crawl environment of the C9 witness: live 100 percent-off
pages at ids below 5, then the terminal 404 without redirect. -/
def f9 : Int → FetchResult :=
  fun i => if i < 5 then FetchResult.page i 0 10 else FetchResult.notFound false

/-- C9: the persisted Resume Cursor is monotonic. The crawl started from a
persisted cursor N ends with a cursor ≥ N, requests no promotion id below
N, processing further ids (more fuel) never decreases the final cursor,
and a run that terminates on the NoMoreSalesAvailable signal ends with the
cursor equal to the highest processed id plus one (or still N when nothing
was processed); a missing resume_index file starts the crawl at 1. -/
theorem c9_resume_cursor (fetch : Int → FetchResult) (fuel : Nat) (N : Int) :
    N ≤ (refresh_sale_cache fetch fuel (some N)).finalCursor
    ∧ (∀ i ∈ (refresh_sale_cache fetch fuel (some N)).requested, N ≤ i)
    ∧ (∀ fuel2, fuel ≤ fuel2 →
        (refresh_sale_cache fetch fuel (some N)).finalCursor
          ≤ (refresh_sale_cache fetch fuel2 (some N)).finalCursor)
    ∧ ((refresh_sale_cache fetch fuel (some N)).done = true →
        ((refresh_sale_cache fetch fuel (some N)).processed = []
            ∧ (refresh_sale_cache fetch fuel (some N)).finalCursor = N)
        ∨ ∃ m, m ∈ (refresh_sale_cache fetch fuel (some N)).processed
            ∧ (∀ j ∈ (refresh_sale_cache fetch fuel (some N)).processed, j ≤ m)
            ∧ (refresh_sale_cache fetch fuel (some N)).finalCursor = m + 1)
    ∧ refresh_sale_cache fetch fuel none = get_all_sales fetch fuel 1 := by
  refine ⟨get_all_sales_cursor_ge fetch fuel N,
          fun i h => get_all_sales_requested_ge fetch fuel N i h,
          fun fuel2 h => get_all_sales_fuel_mono fetch fuel fuel2 N h,
          fun h => get_all_sales_done_max fetch fuel N
            (get_all_sales fetch fuel N) rfl h,
          rfl⟩

/-- C9 witness: the cursor properties evaluated on the concrete crawl f9
resumed from cursor 2 — it requests 2..5, never an id below 2, terminates
naturally, and ends with cursor 5 = 4 + 1, the highest processed id plus
one. -/
theorem c9_resume_cursor_witness :
    (3:Int) ∈ (refresh_sale_cache f9 10 (some 2)).requested
    ∧ ((2:Int) ≤ 3)
    ∧ ((10:Nat) ≤ 12)
    ∧ (refresh_sale_cache f9 10 (some 2)).finalCursor
        ≤ (refresh_sale_cache f9 12 (some 2)).finalCursor
    ∧ (refresh_sale_cache f9 10 (some 2)).done = true
    ∧ (((refresh_sale_cache f9 10 (some 2)).processed = []
          ∧ (refresh_sale_cache f9 10 (some 2)).finalCursor = 2)
        ∨ ∃ m, m ∈ (refresh_sale_cache f9 10 (some 2)).processed
            ∧ (∀ j ∈ (refresh_sale_cache f9 10 (some 2)).processed, j ≤ m)
            ∧ (refresh_sale_cache f9 10 (some 2)).finalCursor = m + 1) :=
  ⟨by decide, (c9_resume_cursor f9 10 2).2.1 3 (by decide), by decide,
   (c9_resume_cursor f9 10 2).2.2.1 12 (by decide), by decide,
   (c9_resume_cursor f9 10 2).2.2.2.1 (by decide)⟩

end ItchClaim
